import Mathlib

/-!
Verification of the RAUC Raspberry Pi tryboot bootloader backend
(`src/bootloaders/raspberrypi.c`) against its natural-language
specification.

The C code is shallowly embedded: file contents are `List Char`, the
filesystem footprint of the backend (the `autoboot.txt` file and its
sibling `autoboot.txt.tmp`) is an explicit record, fallible syscalls and
the firmware helper subprocess are driven by outcome oracles in an
environment record, and GLib `GError` propagation becomes an explicit
error value carrying a kind and a message that grows a context prefix
at each propagation site.
-/

namespace RaucRpi

/-- The `EINVAL` errno value, returned by `renameat2` when the
filesystem does not support `RENAME_EXCHANGE`. -/
def EINVAL : Nat := 22

/-- A boot slot, as referenced from the externally-owned registry.
`id` stands for the object identity (pointer identity in C); `bootname`
is `NULL` (`none`) for non-bootable slots. -/
structure Slot where
  id : Nat
  bootname : Option String
deriving DecidableEq, Repr

/-- Error kinds: `R_BOOTCHOOSER_ERROR_PARSE_FAILED`, `G_FILE_ERROR`
codes (collapsed to one kind; no claim distinguishes them), and GLib
subprocess/spawn errors. -/
inductive ErrKind where
  | ParseFailed
  | FileError
  | SubprocessError
deriving DecidableEq, Repr

/-- A `GError`: a domain/code (kind) plus a human-readable message. -/
structure RError where
  kind : ErrKind
  msg : String
deriving DecidableEq, Repr

/-- `g_propagate_prefixed_error`: the message gains a context string in
front, the kind is unchanged. -/
def withContext (p : String) (e : RError) : RError :=
  { e with msg := p ++ e.msg }

/-- Contents of the two paths the backend touches: the persistent
configuration file (`main`, at `raspberrypi_autoboottxt_path`) and the
sibling temporary file (`tmp`, at `<path>.tmp`). `none` means the path
does not exist. -/
structure FS where
  main : Option (List Char)
  tmp : Option (List Char)
deriving DecidableEq, Repr

/-- Outcome oracles for the fallible file syscalls made by
`raspberrypi_set_other_persistent` and `r_rename`. `exchangeErr` /
`replaceErr` are `none` on success, `some errno` on failure. -/
structure FileEnv where
  openOk : Bool
  writeOk : Bool
  fsyncOk : Bool
  exchangeErr : Option Nat
  replaceErr : Option Nat
  removeOk : Bool
deriving DecidableEq, Repr

/-- Syscalls attempted inside `r_rename`, in order. -/
inductive RenameCall where
  | exchange
  | replace
  | remove
deriving DecidableEq, Repr

/-- `r_rename(oldfilename = tmp, newfilename = main)`:
try `renameat2(RENAME_EXCHANGE)`; on success best-effort `g_remove` the
old name (now holding the prior `main` content) — a remove failure only
warns; on `EINVAL` fall back to a plain replacing `renameat2`; any other
exchange errno is returned as-is. Returns the C result (`0` or `-1`),
the resulting filesystem, and the syscalls attempted. -/
def r_rename (fenv : FileEnv) (fs : FS) : Int × FS × List RenameCall :=
  match fenv.exchangeErr with
  | none =>
      -- exchange succeeded: contents of the two names are swapped
      if fenv.removeOk then
        (0, ⟨fs.tmp, none⟩, [.exchange, .remove])
      else
        (0, ⟨fs.tmp, fs.main⟩, [.exchange, .remove])
  | some e =>
      if e = EINVAL then
        match fenv.replaceErr with
        | none => (0, ⟨fs.tmp, none⟩, [.exchange, .replace])
        | some _ => (-1, fs, [.exchange, .replace])
      else (-1, fs, [.exchange])

/-- The text written to `autoboot.txt`, exactly the `g_strdup_printf`
format string with the two bootnames substituted (glibc renders a NULL
`%s` argument as "(null)"). -/
def autobootDataStr (primary other : Slot) : String :=
  "[all]\ntryboot_a_b=1\nboot_partition=" ++ other.bootname.getD "(null)" ++
    "\n[tryboot]\nboot_partition=" ++ primary.bootname.getD "(null)" ++ "\n"

/-- The written bytes as a character list. -/
def autobootData (primary other : Slot) : List Char :=
  (autobootDataStr primary other).data

/-- Effect of `g_open(tmp, O_CREAT|O_RDWR)` on the tmp path: created
empty if absent; existing content kept (no `O_TRUNC`), descriptor
positioned at offset 0. -/
def openedTmp (tmp : Option (List Char)) : List Char :=
  tmp.getD []

/-- Writing `k` bytes of `data` at offset 0 over existing content
`old` without truncation. -/
def writeAt0 (data old : List Char) (k : Nat) : List Char :=
  data.take k ++ old.drop k

/-- `raspberrypi_set_other_persistent(primary, other)`: open the
sibling tmp file, write the config text, fsync, then `r_rename` the tmp
file onto the persistent path. Returns the result and the final
filesystem. -/
def raspberrypi_set_other_persistent (fenv : FileEnv) (primary other : Slot)
    (fs : FS) : Except RError Unit × FS :=
  if !fenv.openOk then
    (.error ⟨.FileError, "Failed to open file autoboot.txt.tmp"⟩, fs)
  else
    let data := autobootData primary other
    let fs1 : FS := ⟨fs.main, some (openedTmp fs.tmp)⟩
    if !fenv.writeOk then
      (.error ⟨.FileError, "Failed to write file autoboot.txt.tmp"⟩, fs1)
    else
      let fs2 : FS := ⟨fs.main, some (writeAt0 data (openedTmp fs.tmp) data.length)⟩
      if !fenv.fsyncOk then
        (.error ⟨.FileError, "Failed to sync file autoboot.txt.tmp"⟩, fs2)
      else
        match r_rename fenv fs2 with
        | (res, fs3, _) =>
            if res = -1 then
              (.error ⟨.FileError, "Failed to rename autoboot.txt.tmp to autoboot.txt"⟩, fs3)
            else
              (.ok (), fs3)

/-- Every filesystem state reachable at a step boundary of
`raspberrypi_set_other_persistent` under the oracle `fenv`, including a
crash after `k` bytes of the `write` have reached the tmp file, the
intermediate state of a successful exchange before the best-effort
remove, and the final state. Only boundaries actually reached on the
executed path appear. -/
def persistentWriteStates (fenv : FileEnv) (primary other : Slot)
    (fs : FS) (k : Nat) : List FS :=
  let data := autobootData primary other
  let old := openedTmp fs.tmp
  let fs1 : FS := ⟨fs.main, some old⟩
  let fs2 : FS := ⟨fs.main, some (writeAt0 data old data.length)⟩
  fs ::
    if !fenv.openOk then []
    else fs1 :: ⟨fs.main, some (writeAt0 data old (min k data.length))⟩ ::
      if !fenv.writeOk then []
      else fs2 ::
        if !fenv.fsyncOk then []
        else
          match fenv.exchangeErr with
          | none =>
              -- after the exchange, before the remove of the stale old file
              ⟨fs2.tmp, fs2.main⟩ ::
                if fenv.removeOk then [⟨fs2.tmp, none⟩] else []
          | some e =>
              if e = EINVAL then
                match fenv.replaceErr with
                | none => [⟨fs2.tmp, none⟩]
                | some _ => []
              else []

/-- Outcome oracle for the `vcmailbox` helper subprocess run by
`raspberrypi_tryboot_set`: it starts and exits 0, fails to start
(`r_subprocess_new` fails), or exits nonzero
(`g_subprocess_wait_check` fails); in the failure cases `msg` is the
GLib error message. -/
inductive ArmOutcome where
  | ok
  | startFailed (msg : String)
  | runFailed (msg : String)
deriving DecidableEq, Repr

/-- Externally observable mutations a backend operation attempts: the
one-shot firmware reboot-flag command, or a persistent-configuration
write with a `(primary, other)` slot pair. -/
inductive Effect where
  | armFirmware (enable : Bool)
  | writePersistent (primary other : Slot)
deriving DecidableEq, Repr

/-- The backend's environment: firmware-exposed boot facts (`none`
models an unreadable pseudo-file, covering both open failure and a
short read — no claim distinguishes the two), the slot registry in
iteration order (`g_hash_table_get_values`), the subprocess oracle, the
file-syscall oracle, and the current filesystem. -/
structure Env where
  partitionFact : Option Nat
  trybootFact : Option Nat
  slots : List Slot
  arm : ArmOutcome
  fenv : FileEnv
  fs : FS

/-- `raspberrypi_bootloader_get(property)`: read the 4-byte big-endian
value of a firmware pseudo-file; open failure and short read both yield
`R_BOOTCHOOSER_ERROR_PARSE_FAILED`. -/
def raspberrypi_bootloader_get (property : String) (fact : Option Nat) :
    Except RError Nat :=
  match fact with
  | some v => .ok v
  | none => .error ⟨.ParseFailed, "Failed to read file: " ++ property⟩

/-- `raspberrypi_bootloader_get_partition`. -/
def raspberrypi_bootloader_get_partition (env : Env) : Except RError Nat :=
  raspberrypi_bootloader_get "partition" env.partitionFact

/-- `raspberrypi_bootloader_get_tryboot`: any nonzero raw value counts
as `TRUE`. -/
def raspberrypi_bootloader_get_tryboot (env : Env) : Except RError Bool :=
  match raspberrypi_bootloader_get "tryboot" env.trybootFact with
  | .error e => .error e
  | .ok v => .ok (v != 0)

/-- Modelled from the spec: `find_config_slot_by_bootname` lives in the
externally-owned registry code, not in this backend's source file.
Per §4.3 of the spec it looks a slot up by bootname in the registry and
returns nothing when no slot matches. -/
def find_config_slot_by_bootname (slots : List Slot) (name : String) :
    Option Slot :=
  slots.find? (fun s => s.bootname = some name)

/-- `raspberrypi_find_config_slot_by_boot_partition`: format the
partition number with `%u` and look it up as a bootname. -/
def raspberrypi_find_config_slot_by_boot_partition (slots : List Slot)
    (partition : Nat) : Option Slot :=
  find_config_slot_by_bootname slots (toString partition)

/-- `raspberrypi_tryboot_set(TRUE)`: run the `vcmailbox` helper; a
start failure or a nonzero exit is propagated with the corresponding
context prefix as a subprocess-domain error. -/
def raspberrypi_tryboot_set (arm : ArmOutcome) : Except RError Unit :=
  match arm with
  | .ok => .ok ()
  | .startFailed m =>
      .error ⟨.SubprocessError, "Failed to start vcmailbox: " ++ m⟩
  | .runFailed m =>
      .error ⟨.SubprocessError, "Failed to run vcmailbox: " ++ m⟩

/-- `raspberrypi_set_other_temporary`: arm the one-shot reboot flag.
The C body passes the caller's `error` (not its local `ierror`) to
`raspberrypi_tryboot_set`; the subsequent
`g_propagate_prefixed_error(error, ierror, "Failed to set reboot flag: ")`
then runs with `src = NULL`, so the inner `g_propagate_error` is a
no-op (it logs a critical and returns), but the prefixing step still
applies to the already-populated `*error` — so the net observable
result is the inner error with the prefix added. -/
def raspberrypi_set_other_temporary (arm : ArmOutcome) : Except RError Unit :=
  match raspberrypi_tryboot_set arm with
  | .error e => .error (withContext "Failed to set reboot flag: " e)
  | .ok _ => .ok ()

/-- `r_raspberrypi_get_primary`: read the `partition` and `tryboot`
facts, resolve the booted slot; in the normal state the booted slot is
primary, in the tryboot state the first other slot with a bootname is. -/
def r_raspberrypi_get_primary (env : Env) : Except RError Slot :=
  match raspberrypi_bootloader_get_partition env with
  | .error e =>
      .error (withContext "Failed to get bootloader partition property: " e)
  | .ok partition =>
  match raspberrypi_bootloader_get_tryboot env with
  | .error e =>
      .error (withContext "Failed to get bootloader tryboot property: " e)
  | .ok tryboot =>
  match raspberrypi_find_config_slot_by_boot_partition env.slots partition with
  | none =>
      .error ⟨.ParseFailed, "No slot found with partition " ++ toString partition⟩
  | some booted =>
  if !tryboot then .ok booted
  else
    match env.slots.find? (fun s => s != booted && s.bootname.isSome) with
    | some s => .ok s
    | none => .error ⟨.ParseFailed, "No slot found"⟩

/-- `r_raspberrypi_get_state`: good iff the slot is the booted slot or
the reboot flag is set. -/
def r_raspberrypi_get_state (env : Env) (slot : Slot) : Except RError Bool :=
  match raspberrypi_bootloader_get_partition env with
  | .error e =>
      .error (withContext "Failed to get bootloader partition property: " e)
  | .ok partition =>
  match raspberrypi_bootloader_get_tryboot env with
  | .error e =>
      .error (withContext "Failed to get bootloader tryboot property: " e)
  | .ok tryboot =>
  match raspberrypi_find_config_slot_by_boot_partition env.slots partition with
  | none =>
      .error ⟨.ParseFailed, "No slot found with partition " ++ toString partition⟩
  | some booted =>
      .ok (booted == slot || tryboot)

/-- `r_raspberrypi_set_primary(slot)`: no-op if `slot` is already
primary; otherwise arm the reversible tryboot (normal state) or commit
the persistent configuration (tryboot state). Returns the result, the
resulting filesystem, and the mutations attempted. -/
def r_raspberrypi_set_primary (env : Env) (slot : Slot) :
    Except RError Unit × FS × List Effect :=
  match r_raspberrypi_get_primary env with
  | .error e =>
      (.error (withContext "Failed to get primary: " e), env.fs, [])
  | .ok primary =>
  if slot = primary then (.ok (), env.fs, [])
  else
    match raspberrypi_bootloader_get_tryboot env with
    | .error e =>
        (.error (withContext "Failed to get bootloader tryboot property: " e),
          env.fs, [])
    | .ok tryboot =>
    if !tryboot then
      match raspberrypi_set_other_temporary env.arm with
      | .error e =>
          (.error (withContext "Failed to set other temporary: " e),
            env.fs, [.armFirmware true])
      | .ok _ => (.ok (), env.fs, [.armFirmware true])
    else
      match raspberrypi_set_other_persistent env.fenv primary slot env.fs with
      | (.error e, fs') =>
          (.error (withContext "Failed to set other persistent: " e),
            fs', [.writePersistent primary slot])
      | (.ok _, fs') => (.ok (), fs', [.writePersistent primary slot])

/-- `r_raspberrypi_set_state(slot, good)`: persist `(primary, slot)`
when promoting a non-primary slot to good or demoting the primary;
otherwise succeed without doing anything. -/
def r_raspberrypi_set_state (env : Env) (slot : Slot) (good : Bool) :
    Except RError Unit × FS × List Effect :=
  match r_raspberrypi_get_primary env with
  | .error e =>
      (.error (withContext "Failed to get primary: " e), env.fs, [])
  | .ok primary =>
  if (slot != primary && good) || (slot == primary && !good) then
    match raspberrypi_set_other_persistent env.fenv primary slot env.fs with
    | (.error e, fs') =>
        (.error (withContext "Failed to set other persistent: " e),
          fs', [.writePersistent primary slot])
    | (.ok _, fs') => (.ok (), fs', [.writePersistent primary slot])
  else (.ok (), env.fs, [])

/-! ### An external reader of the written configuration text

The backend writes `autoboot.txt` blind; the round-trip property is
checked against an independent reader of the documented format
(§6 of the spec): split into lines, locate a `[section]` header, and
take the value of the first `boot_partition=` line before the next
header. -/

/-- Split a character list into lines at `'\n'`. -/
def splitLines : List Char → List (List Char)
  | [] => [[]]
  | c :: cs =>
      if c = '\n' then [] :: splitLines cs
      else
        match splitLines cs with
        | [] => [[c]]
        | l :: ls => (c :: l) :: ls

/-- The lines following the first occurrence of the header line `hdr`. -/
def linesAfterHeader (hdr : List Char) : List (List Char) → Option (List (List Char))
  | [] => none
  | l :: ls => if l = hdr then some ls else linesAfterHeader hdr ls

/-- The `boot_partition=` key. -/
def bpKey : List Char := "boot_partition=".data

/-- The value of the first `boot_partition=` line, stopping at the next
section header. -/
def findBootPartitionValue : List (List Char) → Option (List Char)
  | [] => none
  | l :: ls =>
      if bpKey.isPrefixOf l then some (l.drop bpKey.length)
      else if l.head? = some '[' then none
      else findBootPartitionValue ls

/-- Parse the configuration text: the `boot_partition` values of the
`[all]` and `[tryboot]` sections. -/
def parseAutoboot (s : String) : Option (List Char × List Char) :=
  let ls := splitLines s.data
  match linesAfterHeader "[all]".data ls with
  | none => none
  | some allLines =>
  match findBootPartitionValue allLines with
  | none => none
  | some allBP =>
  match linesAfterHeader "[tryboot]".data ls with
  | none => none
  | some tbLines =>
  match findBootPartitionValue tbLines with
  | none => none
  | some tbBP => some (allBP, tbBP)

theorem splitLines_ne_nil (xs : List Char) : splitLines xs ≠ [] := by
  cases xs with
  | nil => simp [splitLines]
  | cons c cs =>
      simp only [splitLines]
      split
      · simp
      · split <;> simp

theorem splitLines_append (xs ys : List Char) (h : '\n' ∉ xs) :
    splitLines (xs ++ '\n' :: ys) = xs :: splitLines ys := by
  induction xs with
  | nil => simp [splitLines]
  | cons c cs ih =>
      have hc : ¬(c = '\n') := fun hc => h (hc ▸ List.mem_cons_self c cs)
      have hcs : '\n' ∉ cs := fun hm => h (List.mem_cons_of_mem c hm)
      simp only [List.cons_append, splitLines, if_neg hc, List.append_eq, ih hcs]

/-! ### Concrete fixtures

A two-slot registry like the one in the spec's end-to-end scenario:
`A` on partition 0, `B` on partition 1. -/

/-- Slot `A`, partition 0. -/
def slotA : Slot := ⟨0, some "0"⟩

/-- Slot `B`, partition 1. -/
def slotB : Slot := ⟨1, some "1"⟩

/-- All file syscalls succeed, exchange-rename supported. -/
def fenvOk : FileEnv := ⟨true, true, true, none, none, true⟩

/-- A filesystem holding some prior configuration, no stale tmp file. -/
def fs0 : FS := ⟨some "prior".data, none⟩

/-- Normal state: booted from partition 0, reboot flag clear. -/
def envNormal : Env := ⟨some 0, some 0, [slotA, slotB], .ok, fenvOk, fs0⟩

/-- Trial state: booted from partition 1, reboot flag set. -/
def envTry : Env := ⟨some 1, some 1, [slotA, slotB], .ok, fenvOk, fs0⟩

example : r_raspberrypi_get_primary envNormal = .ok slotA := rfl
example : r_raspberrypi_get_primary envTry = .ok slotA := rfl
example : r_raspberrypi_get_state envNormal slotB = .ok false := rfl
example : r_raspberrypi_get_state envTry slotB = .ok true := rfl
example : parseAutoboot (autobootDataStr slotA slotB) = some ("1".data, "0".data) := by decide

/-- C2: when both firmware facts are readable and the booted partition
resolves to a slot, `get_state(s)` succeeds, and it reports `s` good
iff `s` is the resolved booted slot or the tryboot flag is set; with
the flag set every slot is good, with it clear exactly the booted slot
is. -/
theorem C2_get_state_good_iff (env : Env) (slot booted : Slot) (pa tv : Nat)
    (hpa : env.partitionFact = some pa) (htv : env.trybootFact = some tv)
    (hres : raspberrypi_find_config_slot_by_boot_partition env.slots pa = some booted) :
    ∃ good, r_raspberrypi_get_state env slot = .ok good
      ∧ (good = true ↔ (slot = booted ∨ tv ≠ 0)) := by
  refine ⟨(booted == slot) || (tv != 0), ?_, ?_⟩
  · simp only [r_raspberrypi_get_state, raspberrypi_bootloader_get_partition,
      raspberrypi_bootloader_get_tryboot, raspberrypi_bootloader_get, hpa, htv, hres]
  · simp only [Bool.or_eq_true, beq_iff_eq, bne_iff_ne]
    exact or_congr_left eq_comm

/-- C2 witness: in the normal-state fixture the non-booted slot `B` is
not reported good. -/
theorem C2_witness :
    ∃ good, r_raspberrypi_get_state envNormal slotB = .ok good
      ∧ (good = true ↔ (slotB = slotA ∨ (0 : Nat) ≠ 0)) :=
  C2_get_state_good_iff envNormal slotB slotA 0 0 rfl rfl rfl

/-- C4: if `p` is the current primary, `set_primary(p)` succeeds and
mutates nothing: the filesystem is unchanged and no firmware or file
effect is attempted. -/
theorem C4_set_primary_idempotent (env : Env) (p : Slot)
    (hp : r_raspberrypi_get_primary env = .ok p) :
    r_raspberrypi_set_primary env p = (.ok (), env.fs, []) := by
  simp [r_raspberrypi_set_primary, hp]

/-- C4 witness: `set_primary(A)` in the normal-state fixture, where `A`
is primary. -/
theorem C4_witness :
    r_raspberrypi_set_primary envNormal slotA = (.ok (), envNormal.fs, []) :=
  C4_set_primary_idempotent envNormal slotA rfl

/-- C5: with the primary resolved, `set_state(s, good)` attempts the
persistent write with the pair `(primary, s)` exactly when promoting a
non-primary slot to good or demoting the primary; every other
combination succeeds without any effect. -/
theorem C5_set_state_write_condition (env : Env) (slot primary : Slot) (good : Bool)
    (hp : r_raspberrypi_get_primary env = .ok primary) :
    (((slot ≠ primary ∧ good = true) ∨ (slot = primary ∧ good = false)) →
        (r_raspberrypi_set_state env slot good).2.2 = [.writePersistent primary slot])
    ∧ (¬((slot ≠ primary ∧ good = true) ∨ (slot = primary ∧ good = false)) →
        r_raspberrypi_set_state env slot good = (.ok (), env.fs, [])) := by
  constructor
  · intro hcond
    have hb : ((slot != primary && good) || (slot == primary && !good)) = true := by
      rcases hcond with ⟨hne, hg⟩ | ⟨heq, hg⟩ <;> subst hg <;> simp_all
    simp only [r_raspberrypi_set_state, hp, hb, if_true]
    rcases hrw : raspberrypi_set_other_persistent env.fenv primary slot env.fs with ⟨r, fs'⟩
    cases r <;> rfl
  · intro hcond
    have hb : ((slot != primary && good) || (slot == primary && !good)) = false := by
      by_cases heq : slot = primary <;> cases good <;> simp_all
    simp [r_raspberrypi_set_state, hp, hb]

/-- C5 witness: in the normal-state fixture (primary `A`), promoting
`B` to good attempts the write with `(A, B)`, and marking `B` bad is a
no-op success. -/
theorem C5_witness :
    (r_raspberrypi_set_state envNormal slotB true).2.2 = [.writePersistent slotA slotB]
    ∧ r_raspberrypi_set_state envNormal slotB false = (.ok (), envNormal.fs, []) :=
  ⟨(C5_set_state_write_condition envNormal slotB slotA true rfl).1
      (.inl ⟨by decide, rfl⟩),
   (C5_set_state_write_condition envNormal slotB slotA false rfl).2
      (by rintro (⟨_, h⟩ | ⟨h, _⟩) <;> simp_all [slotA, slotB])⟩

/-- C7: with the reboot flag set and the booted slot resolved,
`get_primary` returns the first slot in registry iteration order that
is distinct from the booted slot and has a bootname, and fails with
`ParseFailed` / "No slot found" when no such slot exists. -/
theorem C7_get_primary_trial (env : Env) (pa tv : Nat) (booted : Slot)
    (hpa : env.partitionFact = some pa) (htv : env.trybootFact = some tv)
    (htb : tv ≠ 0)
    (hres : raspberrypi_find_config_slot_by_boot_partition env.slots pa = some booted) :
    (∀ s, env.slots.find? (fun s => s != booted && s.bootname.isSome) = some s →
        r_raspberrypi_get_primary env = .ok s)
    ∧ (env.slots.find? (fun s => s != booted && s.bootname.isSome) = none →
        r_raspberrypi_get_primary env = .error ⟨.ParseFailed, "No slot found"⟩) := by
  have htv' : (tv != 0) = true := by simpa using htb
  constructor
  · intro s hfind
    simp only [r_raspberrypi_get_primary, raspberrypi_bootloader_get_partition,
      raspberrypi_bootloader_get_tryboot, raspberrypi_bootloader_get,
      hpa, htv, hres, htv', hfind, Bool.not_true, Bool.false_eq_true, if_false]
  · intro hfind
    simp only [r_raspberrypi_get_primary, raspberrypi_bootloader_get_partition,
      raspberrypi_bootloader_get_tryboot, raspberrypi_bootloader_get,
      hpa, htv, hres, htv', hfind, Bool.not_true, Bool.false_eq_true, if_false]

/-- C7 witness: in the trial-state fixture (booted `B`), the scan
returns `A`. -/
theorem C7_witness : r_raspberrypi_get_primary envTry = .ok slotA :=
  (C7_get_primary_trial envTry 1 1 slotB rfl rfl (by decide) rfl).1 slotA rfl

/-- C8: when the booted partition matches no registered slot,
`get_primary`, `get_state` and `set_state` all fail with a
`ParseFailed` error, and `set_state` leaves the filesystem unchanged
and attempts no effect (`get_primary` and `get_state` are read-only by
construction). -/
theorem C8_unresolved_partition (env : Env) (slot : Slot) (good : Bool) (pa tv : Nat)
    (hpa : env.partitionFact = some pa) (htv : env.trybootFact = some tv)
    (hres : raspberrypi_find_config_slot_by_boot_partition env.slots pa = none) :
    r_raspberrypi_get_primary env =
        .error ⟨.ParseFailed, "No slot found with partition " ++ toString pa⟩
    ∧ r_raspberrypi_get_state env slot =
        .error ⟨.ParseFailed, "No slot found with partition " ++ toString pa⟩
    ∧ r_raspberrypi_set_state env slot good =
        (.error ⟨.ParseFailed,
          "Failed to get primary: " ++ ("No slot found with partition " ++ toString pa)⟩,
          env.fs, []) := by
  have hgp : r_raspberrypi_get_primary env =
      .error ⟨.ParseFailed, "No slot found with partition " ++ toString pa⟩ := by
    simp only [r_raspberrypi_get_primary, raspberrypi_bootloader_get_partition,
      raspberrypi_bootloader_get_tryboot, raspberrypi_bootloader_get, hpa, htv, hres]
  refine ⟨hgp, ?_, ?_⟩
  · simp only [r_raspberrypi_get_state, raspberrypi_bootloader_get_partition,
      raspberrypi_bootloader_get_tryboot, raspberrypi_bootloader_get, hpa, htv, hres]
  · simp only [r_raspberrypi_set_state, hgp, withContext]

/-- C8 witness: booted partition 7 matches neither registered slot. -/
theorem C8_witness :
    r_raspberrypi_get_primary ⟨some 7, some 0, [slotA, slotB], .ok, fenvOk, fs0⟩ =
        .error ⟨.ParseFailed, "No slot found with partition " ++ toString 7⟩
    ∧ r_raspberrypi_get_state ⟨some 7, some 0, [slotA, slotB], .ok, fenvOk, fs0⟩ slotA =
        .error ⟨.ParseFailed, "No slot found with partition " ++ toString 7⟩
    ∧ r_raspberrypi_set_state ⟨some 7, some 0, [slotA, slotB], .ok, fenvOk, fs0⟩ slotA true =
        (.error ⟨.ParseFailed,
          "Failed to get primary: " ++ ("No slot found with partition " ++ toString 7)⟩,
          fs0, []) :=
  C8_unresolved_partition ⟨some 7, some 0, [slotA, slotB], .ok, fenvOk, fs0⟩
    slotA true 7 0 rfl rfl rfl

/-- C10: inside `r_rename`, the replace-rename fallback is attempted
iff the exchange-rename failed with `EINVAL`; any other exchange errno
is returned as the error with no replace attempted; and a failed
best-effort remove after a successful exchange never makes `r_rename`
report failure. -/
theorem C10_rename_fallback (fenv : FileEnv) (fs : FS) :
    (RenameCall.replace ∈ (r_rename fenv fs).2.2 ↔ fenv.exchangeErr = some EINVAL)
    ∧ (∀ e, fenv.exchangeErr = some e → e ≠ EINVAL →
        r_rename fenv fs = (-1, fs, [.exchange]))
    ∧ (fenv.exchangeErr = none → (r_rename fenv fs).1 = 0) := by
  obtain ⟨op, w, f, ex, rep, rem⟩ := fenv
  refine ⟨?_, ?_, ?_⟩
  · rcases ex with _ | e
    · cases rem <;> simp [r_rename]
    · by_cases he : e = EINVAL
      · subst he
        cases rep <;> simp [r_rename]
      · simp [r_rename, he]
  · intro e he hne
    cases he
    simp [r_rename, hne]
  · intro he
    cases he
    cases rem <;> simp [r_rename]

/-- C10 witness: an `EACCES` (13) exchange failure aborts with no
replace attempt, and a failed remove after a successful exchange still
returns 0. -/
theorem C10_witness :
    r_rename ⟨true, true, true, some 13, none, true⟩ fs0 = (-1, fs0, [.exchange])
    ∧ (r_rename ⟨true, true, true, none, none, false⟩ fs0).1 = 0 :=
  ⟨(C10_rename_fallback ⟨true, true, true, some 13, none, true⟩ fs0).2.1 13 rfl
      (by decide),
   (C10_rename_fallback ⟨true, true, true, none, none, false⟩ fs0).2.2 rfl⟩

/-- C3: for a target distinct from the current primary: in the normal
state (`tryboot` clear) `set_primary` attempts exactly the firmware
arming command and leaves the filesystem untouched; in the trial state
(`tryboot` set) it attempts exactly the persistent-configuration write
with `(primary, target)` and no firmware command. -/
theorem C3_set_primary_frame (env : Env) (target booted : Slot) (pa tv : Nat)
    (hpa : env.partitionFact = some pa) (htv : env.trybootFact = some tv)
    (hres : raspberrypi_find_config_slot_by_boot_partition env.slots pa = some booted) :
    (tv = 0 → target ≠ booted →
        (r_raspberrypi_set_primary env target).2.2 = [.armFirmware true]
        ∧ (r_raspberrypi_set_primary env target).2.1 = env.fs)
    ∧ (tv ≠ 0 →
        ∀ p, env.slots.find? (fun s => s != booted && s.bootname.isSome) = some p →
        target ≠ p →
        (r_raspberrypi_set_primary env target).2.2 = [.writePersistent p target]) := by
  constructor
  · intro htv0 htgt
    subst htv0
    have hgp : r_raspberrypi_get_primary env = .ok booted := by
      simp only [r_raspberrypi_get_primary, raspberrypi_bootloader_get_partition,
        raspberrypi_bootloader_get_tryboot, raspberrypi_bootloader_get, hpa, htv, hres]
      rfl
    simp only [r_raspberrypi_set_primary, hgp, if_neg htgt,
      raspberrypi_bootloader_get_tryboot, raspberrypi_bootloader_get, htv]
    rcases harm : raspberrypi_set_other_temporary env.arm with _ | e <;> simp
  · intro htbne p hfind htgt
    have htv' : (tv != 0) = true := by simpa using htbne
    have hgp : r_raspberrypi_get_primary env = .ok p := by
      simp only [r_raspberrypi_get_primary, raspberrypi_bootloader_get_partition,
        raspberrypi_bootloader_get_tryboot, raspberrypi_bootloader_get,
        hpa, htv, hres, htv', hfind, Bool.not_true, Bool.false_eq_true, if_false]
    simp only [r_raspberrypi_set_primary, hgp, if_neg htgt,
      raspberrypi_bootloader_get_tryboot, raspberrypi_bootloader_get, htv, htv',
      Bool.not_true, Bool.false_eq_true, if_false]
    rcases hrw : raspberrypi_set_other_persistent env.fenv p target env.fs with ⟨r, fs'⟩
    cases r <;> rfl

/-- C3 witness: in the normal-state fixture `set_primary(B)` only arms
the firmware; in the trial-state fixture (booted `B`, primary `A`)
`set_primary(B)` only attempts the `(A, B)` persistent write. -/
theorem C3_witness :
    ((r_raspberrypi_set_primary envNormal slotB).2.2 = [.armFirmware true]
      ∧ (r_raspberrypi_set_primary envNormal slotB).2.1 = envNormal.fs)
    ∧ (r_raspberrypi_set_primary envTry slotB).2.2 = [.writePersistent slotA slotB] :=
  ⟨(C3_set_primary_frame envNormal slotB slotA 0 0 rfl rfl rfl).1 rfl (by decide),
   (C3_set_primary_frame envTry slotB slotB 1 1 rfl rfl rfl).2 (by decide)
      slotA rfl (by decide)⟩

/-- C9: an arming failure inside `set_primary`'s normal branch is
returned with its subprocess error kind unchanged and the message
wrapped, innermost out, by the `vcmailbox` step's prefix, the arming
step's "Failed to set reboot flag: " prefix, and `set_primary`'s
"Failed to set other temporary: " prefix. -/
theorem C9_error_context (env : Env) (target booted : Slot) (pa : Nat) (m : String)
    (hpa : env.partitionFact = some pa) (htv : env.trybootFact = some 0)
    (hres : raspberrypi_find_config_slot_by_boot_partition env.slots pa = some booted)
    (htgt : target ≠ booted) :
    (env.arm = .runFailed m →
        (r_raspberrypi_set_primary env target).1 = .error ⟨.SubprocessError,
          "Failed to set other temporary: " ++ ("Failed to set reboot flag: " ++
            ("Failed to run vcmailbox: " ++ m))⟩)
    ∧ (env.arm = .startFailed m →
        (r_raspberrypi_set_primary env target).1 = .error ⟨.SubprocessError,
          "Failed to set other temporary: " ++ ("Failed to set reboot flag: " ++
            ("Failed to start vcmailbox: " ++ m))⟩) := by
  have hgp : r_raspberrypi_get_primary env = .ok booted := by
    simp only [r_raspberrypi_get_primary, raspberrypi_bootloader_get_partition,
      raspberrypi_bootloader_get_tryboot, raspberrypi_bootloader_get, hpa, htv, hres]
    rfl
  constructor <;> intro harm <;>
    simp [r_raspberrypi_set_primary, hgp, if_neg htgt,
      raspberrypi_bootloader_get_tryboot, raspberrypi_bootloader_get, htv,
      raspberrypi_set_other_temporary, raspberrypi_tryboot_set, harm, withContext]

/-- C9 witness: a nonzero `vcmailbox` exit with message "boom" in the
normal-state fixture. -/
theorem C9_witness :
    (r_raspberrypi_set_primary
        ⟨some 0, some 0, [slotA, slotB], .runFailed "boom", fenvOk, fs0⟩ slotB).1 =
      .error ⟨.SubprocessError,
        "Failed to set other temporary: " ++ ("Failed to set reboot flag: " ++
          ("Failed to run vcmailbox: " ++ "boom"))⟩ :=
  (C9_error_context ⟨some 0, some 0, [slotA, slotB], .runFailed "boom", fenvOk, fs0⟩
      slotB slotA 0 "boom" rfl rfl rfl (by decide)).1 rfl

theorem mem_persistentWriteStates_main (fenv : FileEnv) (primary other : Slot)
    (fs : FS) (k : Nat) (s : FS)
    (hs : s ∈ persistentWriteStates fenv primary other fs k) :
    s.main = fs.main
    ∨ s.main = some (writeAt0 (autobootData primary other) (openedTmp fs.tmp)
        (autobootData primary other).length) := by
  obtain ⟨op, w, f, ex, rep, rem⟩ := fenv
  simp only [persistentWriteStates] at hs
  cases op <;> cases w <;> cases f <;> cases rem <;>
    rcases ex with _ | e <;> rcases rep with _ | rv <;>
    (try by_cases he : e = EINVAL) <;> simp_all <;>
    (rcases hs with (rfl | rfl | rfl | rfl | rfl | rfl)) <;> simp

theorem set_other_persistent_final_main (fenv : FileEnv) (primary other : Slot)
    (fs : FS) :
    (raspberrypi_set_other_persistent fenv primary other fs).2.main = fs.main
    ∨ (raspberrypi_set_other_persistent fenv primary other fs).2.main
        = some (writeAt0 (autobootData primary other) (openedTmp fs.tmp)
            (autobootData primary other).length) := by
  obtain ⟨op, w, f, ex, rep, rem⟩ := fenv
  simp only [raspberrypi_set_other_persistent, r_rename]
  cases op <;> cases w <;> cases f <;> cases rem <;>
    rcases ex with _ | e <;> rcases rep with _ | rv <;>
    (try by_cases he : e = EINVAL) <;> simp_all

/-- C1: starting from a persistent file holding `old` and no stale
temporary file, at every step boundary of the persistent-write
operation — including a crash after any number `k` of written bytes,
between the exchange and the stale-file removal, and at the final
return (success or error) — the persistent path holds either the
complete prior content or the complete new configuration text, never a
mixture. -/
theorem C1_persistent_write_atomic (fenv : FileEnv) (primary other : Slot)
    (fs : FS) (old : List Char) (k : Nat)
    (hmain : fs.main = some old) (htmp : fs.tmp = none) :
    (∀ s ∈ persistentWriteStates fenv primary other fs k,
        s.main = some old ∨ s.main = some (autobootData primary other))
    ∧ ((raspberrypi_set_other_persistent fenv primary other fs).2.main = some old
        ∨ (raspberrypi_set_other_persistent fenv primary other fs).2.main
            = some (autobootData primary other)) := by
  have hw : writeAt0 (autobootData primary other) (openedTmp fs.tmp)
      (autobootData primary other).length = autobootData primary other := by
    simp [writeAt0, openedTmp, htmp]
  constructor
  · intro s hs
    rcases mem_persistentWriteStates_main fenv primary other fs k s hs with h | h
    · exact .inl (by rw [h, hmain])
    · exact .inr (by rw [h, hw])
  · rcases set_other_persistent_final_main fenv primary other fs with h | h
    · exact .inl (by rw [h, hmain])
    · exact .inr (by rw [h, hw])

/-- C1 witness: the all-success oracle, fixture slots, prior content
"prior", crash after 3 written bytes. -/
theorem C1_witness :
    (∀ s ∈ persistentWriteStates fenvOk slotA slotB fs0 3,
        s.main = some "prior".data ∨ s.main = some (autobootData slotA slotB))
    ∧ ((raspberrypi_set_other_persistent fenvOk slotA slotB fs0).2.main
          = some "prior".data
        ∨ (raspberrypi_set_other_persistent fenvOk slotA slotB fs0).2.main
          = some (autobootData slotA slotB)) :=
  C1_persistent_write_atomic fenvOk slotA slotB fs0 "prior".data 3 rfl rfl

theorem data_append (s t : String) : (s ++ t).data = s.data ++ t.data := rfl

theorem bpKey_isPrefixOf_append (x : List Char) :
    bpKey.isPrefixOf (bpKey ++ x) = true := by
  simp [List.isPrefixOf_iff_prefix]

theorem bpKey_append_ne_tryboot (x : List Char) :
    bpKey ++ x ≠ "[tryboot]".data := by
  intro h
  have h1 : (bpKey ++ x).head? = some 'b' := rfl
  rw [h] at h1
  exact absurd h1 (by decide)

theorem linesAfterHeader_cons_hit (hdr : List Char) (ls : List (List Char)) :
    linesAfterHeader hdr (hdr :: ls) = some ls := by
  simp [linesAfterHeader]

theorem linesAfterHeader_cons_miss (hdr l : List Char) (ls : List (List Char))
    (h : l ≠ hdr) : linesAfterHeader hdr (l :: ls) = linesAfterHeader hdr ls := by
  simp [linesAfterHeader, h]

theorem findBPV_cons_hit (x : List Char) (ls : List (List Char)) :
    findBootPartitionValue ((bpKey ++ x) :: ls) = some x := by
  simp [findBootPartitionValue, bpKey_isPrefixOf_append, List.drop_left]

theorem findBPV_cons_skip (l : List Char) (ls : List (List Char))
    (h1 : bpKey.isPrefixOf l = false) (h2 : l.head? ≠ some '[') :
    findBootPartitionValue (l :: ls) = findBootPartitionValue ls := by
  simp [findBootPartitionValue, h1, h2]

theorem autobootData_decomp (A B : Slot) (a b : String)
    (hA : A.bootname = some a) (hB : B.bootname = some b) :
    autobootData A B =
      "[all]".data ++ '\n' :: ("tryboot_a_b=1".data ++ '\n' ::
        ((bpKey ++ b.data) ++ '\n' :: ("[tryboot]".data ++ '\n' ::
          ((bpKey ++ a.data) ++ '\n' :: [])))) := by
  have hpre : "[all]\ntryboot_a_b=1\nboot_partition=".data
      = "[all]".data ++ '\n' :: ("tryboot_a_b=1".data ++ '\n' :: bpKey) := by decide
  have hmid : "\n[tryboot]\nboot_partition=".data
      = '\n' :: ("[tryboot]".data ++ '\n' :: bpKey) := by decide
  have hnl : "\n".data = ['\n'] := by decide
  simp only [autobootData, autobootDataStr, hA, hB, Option.getD_some, data_append,
    hpre, hmid, hnl]
  simp [List.append_assoc, bpKey]

theorem splitLines_autobootData (A B : Slot) (a b : String)
    (hA : A.bootname = some a) (hB : B.bootname = some b)
    (ha : '\n' ∉ a.data) (hb : '\n' ∉ b.data) :
    splitLines (autobootData A B) =
      ["[all]".data, "tryboot_a_b=1".data, bpKey ++ b.data,
        "[tryboot]".data, bpKey ++ a.data, []] := by
  have hkb : '\n' ∉ bpKey ++ b.data := fun hmem =>
    (List.mem_append.mp hmem).elim (fun h => absurd h (by decide)) hb
  have hka : '\n' ∉ bpKey ++ a.data := fun hmem =>
    (List.mem_append.mp hmem).elim (fun h => absurd h (by decide)) ha
  rw [autobootData_decomp A B a b hA hB,
    splitLines_append _ _ (by decide), splitLines_append _ _ (by decide),
    splitLines_append _ _ hkb, splitLines_append _ _ (by decide),
    splitLines_append _ _ hka]
  rfl

/-- C6: writing the persistent configuration with the spec's
`(other = A, target = B)` pair — the call
`raspberrypi_set_other_persistent(A, B)` — lands exactly the generated
text at the persistent path, and the external reader parses that text
to `all.boot_partition = B`'s identifier and
`tryboot.boot_partition = A`'s identifier (the `[all]` section also
carrying the fixed `tryboot_a_b=1` marker line, part of the written
template). -/
theorem C6_round_trip (A B : Slot) (a b : String)
    (hA : A.bootname = some a) (hB : B.bootname = some b)
    (ha : '\n' ∉ a.data) (hb : '\n' ∉ b.data)
    (fenv : FileEnv) (fs : FS)
    (hopen : fenv.openOk = true) (hw : fenv.writeOk = true)
    (hf : fenv.fsyncOk = true) (hex : fenv.exchangeErr = none)
    (htmp : fs.tmp = none) :
    (raspberrypi_set_other_persistent fenv A B fs).2.main = some (autobootData A B)
    ∧ parseAutoboot (autobootDataStr A B) = some (b.data, a.data) := by
  constructor
  · rcases hrem : fenv.removeOk <;>
      simp [raspberrypi_set_other_persistent, hopen, hw, hf, r_rename, hex, hrem,
        writeAt0, openedTmp, htmp]
  · have hsplit := splitLines_autobootData A B a b hA hB ha hb
    have hall : linesAfterHeader "[all]".data (splitLines (autobootData A B))
        = some ["tryboot_a_b=1".data, bpKey ++ b.data, "[tryboot]".data,
            bpKey ++ a.data, []] := by
      rw [hsplit, linesAfterHeader_cons_hit]
    have hbp1 : findBootPartitionValue ["tryboot_a_b=1".data, bpKey ++ b.data,
        "[tryboot]".data, bpKey ++ a.data, []] = some b.data := by
      rw [findBPV_cons_skip _ _ (by decide) (by decide), findBPV_cons_hit]
    have htb : linesAfterHeader "[tryboot]".data (splitLines (autobootData A B))
        = some [bpKey ++ a.data, []] := by
      rw [hsplit, linesAfterHeader_cons_miss _ _ _ (by decide),
        linesAfterHeader_cons_miss _ _ _ (by decide),
        linesAfterHeader_cons_miss _ _ _ (bpKey_append_ne_tryboot _),
        linesAfterHeader_cons_hit]
    have hbp2 : findBootPartitionValue [bpKey ++ a.data, []] = some a.data :=
      findBPV_cons_hit _ _
    simp only [parseAutoboot, show (autobootDataStr A B).data = autobootData A B
      from rfl, hall, hbp1, htb, hbp2]

/-- C6 witness: the fixture slots `A` (bootname "0") and `B`
(bootname "1"). -/
theorem C6_witness :
    (raspberrypi_set_other_persistent fenvOk slotA slotB fs0).2.main
        = some (autobootData slotA slotB)
    ∧ parseAutoboot (autobootDataStr slotA slotB) = some ("1".data, "0".data) :=
  C6_round_trip slotA slotB "0" "1" rfl rfl (by decide) (by decide)
    fenvOk fs0 rfl rfl rfl rfl rfl

end RaucRpi
